import Mathlib

/-!
Formal model of the HOLFY27 AutoCheck status-aggregation and reporting core.

The definitions below are shallow embeddings of the Python sources:
  * `src/checks/base.py`   — `CheckResult`, `ValidationReport`, status helpers;
  * `src/autocheck_report.py` — HTML rendering (`generate_html_content`);
  * `src/autocheck_config.py` — `CHECK_CATEGORIES`;
  * `src/autocheck.py`     — the orchestrator's exit-code logic (`AutoCheck.run`).

Python dictionaries that are built with a fixed literal key order are embedded
as ordered association lists, so that key sets and key order are part of the
model.  `details : Dict[str, Any]` is embedded as an association list with
string values (the checks only ever store scalars there, and no aggregation
or rendering decision inspects a `details` value).
-/

/-- Result of a single validation check (`CheckResult` in `src/checks/base.py`). -/
structure CheckResult where
  name : String
  status : String
  message : String
  details : List (String × String) := []

/-- `CheckResult.is_pass`: `self.status in ('PASS', 'FIXED')`. -/
def CheckResult.is_pass (c : CheckResult) : Bool :=
  c.status == "PASS" || c.status == "FIXED"

/-- `CheckResult.is_fail`: `self.status == 'FAIL'`. -/
def CheckResult.is_fail (c : CheckResult) : Bool :=
  c.status == "FAIL"

/-- `CheckResult.is_warn`: `self.status == 'WARN'`. -/
def CheckResult.is_warn (c : CheckResult) : Bool :=
  c.status == "WARN"

/-- Python values that appear in the serialized report: strings, ints,
ordered dicts and lists. -/
inductive PyVal where
  | str : String → PyVal
  | int : Nat → PyVal
  | dict : List (String × PyVal) → PyVal
  | list : List PyVal → PyVal

/-- `CheckResult.to_dict`: `asdict(self)` — a dict with the four fields in
declaration order. -/
def CheckResult.to_dict (c : CheckResult) : PyVal :=
  .dict [("name", .str c.name), ("status", .str c.status),
         ("message", .str c.message),
         ("details", .dict (c.details.map (fun p => (p.1, PyVal.str p.2))))]

/-- `CheckResult.to_log_line`: `f"{self.status}: {self.name} - {self.message}"`. -/
def CheckResult.to_log_line (c : CheckResult) : String :=
  c.status ++ ": " ++ c.name ++ " - " ++ c.message

/-- Complete validation report (`ValidationReport` in `src/checks/base.py`),
with the dataclass defaults. -/
structure ValidationReport where
  lab_sku : String
  timestamp : String := ""
  min_exp_date : String := ""
  max_exp_date : String := ""
  ssl_checks : List CheckResult := []
  license_checks : List CheckResult := []
  ntp_checks : List CheckResult := []
  vm_config_checks : List CheckResult := []
  vm_resource_checks : List CheckResult := []
  password_expiration_checks : List CheckResult := []
  linux_checks : List CheckResult := []
  windows_checks : List CheckResult := []
  url_checks : List CheckResult := []
  vsphere_checks : List CheckResult := []
  inventory_checks : List CheckResult := []
  overall_status : String := "PASS"

/-- `ValidationReport.__post_init__`: the timestamp defaults to the current
time (passed here explicitly as `now`) when it was not provided. -/
def ValidationReport.post_init (r : ValidationReport) (now : String) : ValidationReport :=
  if r.timestamp = "" then { r with timestamp := now } else r

/-- `ValidationReport.get_all_checks`: the eleven category lists concatenated
in declaration order. -/
def ValidationReport.get_all_checks (r : ValidationReport) : List CheckResult :=
  r.ssl_checks ++
  r.license_checks ++
  r.ntp_checks ++
  r.vm_config_checks ++
  r.vm_resource_checks ++
  r.password_expiration_checks ++
  r.linux_checks ++
  r.windows_checks ++
  r.url_checks ++
  r.vsphere_checks ++
  r.inventory_checks

/-- `ValidationReport.calculate_overall_status`: sets `overall_status` to
`FAIL` if any check has status `FAIL`, else `WARN` if any has `WARN`, else
`PASS`.  The Python method mutates `self` and returns the new status; here it
returns the updated report, whose `overall_status` field is the return value. -/
def ValidationReport.calculate_overall_status (r : ValidationReport) : ValidationReport :=
  let all_checks := r.get_all_checks
  if all_checks.any (fun c => c.status == "FAIL") then
    { r with overall_status := "FAIL" }
  else if all_checks.any (fun c => c.status == "WARN") then
    { r with overall_status := "WARN" }
  else
    { r with overall_status := "PASS" }

/-- `ValidationReport.get_summary`: the dict literal with the six keys in
source order; `sum(1 for c in all_checks if P(c))` is `List.countP`. -/
def ValidationReport.get_summary (r : ValidationReport) : List (String × Nat) :=
  let all_checks := r.get_all_checks
  [("pass", all_checks.countP (fun c => c.status == "PASS" || c.status == "FIXED")),
   ("fail", all_checks.countP (fun c => c.status == "FAIL")),
   ("warn", all_checks.countP (fun c => c.status == "WARN")),
   ("info", all_checks.countP (fun c => c.status == "INFO")),
   ("skipped", all_checks.countP (fun c => c.status == "SKIPPED")),
   ("total", all_checks.length)]

/-- Indexing a summary dict (`summary['pass']` etc.); the six keys are always
present, so the default is never hit. -/
def summaryGet (summary : List (String × Nat)) (key : String) : Nat :=
  (summary.lookup key).getD 0

/-- `ValidationReport.to_dict`: the dict literal of `src/checks/base.py`
lines 214-235, keys in source order. -/
def ValidationReport.to_dict (r : ValidationReport) : PyVal :=
  .dict [("lab_sku", .str r.lab_sku),
         ("timestamp", .str r.timestamp),
         ("min_exp_date", .str r.min_exp_date),
         ("max_exp_date", .str r.max_exp_date),
         ("overall_status", .str r.overall_status),
         ("summary", .dict (r.get_summary.map (fun p => (p.1, PyVal.int p.2)))),
         ("ssl_checks", .list (r.ssl_checks.map CheckResult.to_dict)),
         ("license_checks", .list (r.license_checks.map CheckResult.to_dict)),
         ("ntp_checks", .list (r.ntp_checks.map CheckResult.to_dict)),
         ("vm_config_checks", .list (r.vm_config_checks.map CheckResult.to_dict)),
         ("vm_resource_checks", .list (r.vm_resource_checks.map CheckResult.to_dict)),
         ("password_expiration_checks", .list (r.password_expiration_checks.map CheckResult.to_dict)),
         ("linux_checks", .list (r.linux_checks.map CheckResult.to_dict)),
         ("windows_checks", .list (r.windows_checks.map CheckResult.to_dict)),
         ("url_checks", .list (r.url_checks.map CheckResult.to_dict)),
         ("vsphere_checks", .list (r.vsphere_checks.map CheckResult.to_dict)),
         ("inventory_checks", .list (r.inventory_checks.map CheckResult.to_dict))]

mutual
/-- `json.dumps` is an external library call; modelled as a deterministic,
insertion-order-preserving renderer (`sort_keys` defaults to `False`, so dict
order is preserved; the `indent=2` layout is abstracted). -/
def dumps : PyVal → String
  | .str s => "\"" ++ s ++ "\""
  | .int n => toString n
  | .dict l => "\x7b" ++ dumpsPairs l ++ "\x7d"
  | .list l => "[" ++ dumpsList l ++ "]"

/-- Renders the elements of a Python list, comma separated. -/
def dumpsList : List PyVal → String
  | [] => ""
  | [v] => dumps v
  | v :: rest => dumps v ++ ", " ++ dumpsList rest

/-- Renders the key/value pairs of a Python dict, comma separated. -/
def dumpsPairs : List (String × PyVal) → String
  | [] => ""
  | [p] => "\"" ++ p.1 ++ "\": " ++ dumps p.2
  | p :: rest => "\"" ++ p.1 ++ "\": " ++ dumps p.2 ++ ", " ++ dumpsPairs rest
end

/-- `ValidationReport.to_json`: `json.dumps(self.to_dict(), ...)`. -/
def ValidationReport.to_json (r : ValidationReport) : String :=
  dumps r.to_dict

/-- `get_status_icon` of `src/checks/base.py` (the icon characters are taken
byte-for-byte from the source file, which stores them mojibake-encoded). -/
def icons : List (String × String) :=
  [("PASS", "âœ…"),
   ("FAIL", "âŒ"),
   ("WARN", "âš ï¸"),
   ("INFO", "â„¹ï¸"),
   ("SKIPPED", "â­ï¸"),
   ("FIXED", "ðŸ”§")]

/-- `icons.get(status, fallback)`. -/
def get_status_icon (status : String) : String :=
  (icons.lookup status).getD "â“"

/-- `get_status_class` of `src/checks/base.py`. -/
def statusClasses : List (String × String) :=
  [("PASS", "status-pass"),
   ("FAIL", "status-fail"),
   ("WARN", "status-warn"),
   ("INFO", "status-info"),
   ("SKIPPED", "status-skipped"),
   ("FIXED", "status-fixed")]

/-- `classes.get(status, 'status-unknown')`. -/
def get_status_class (status : String) : String :=
  (statusClasses.lookup status).getD "status-unknown"

/-- `config.CHECK_CATEGORIES` from `src/autocheck_config.py`:
`(field name, display name)` pairs in the fixed display order. -/
def CHECK_CATEGORIES : List (String × String) :=
  [("ssl_checks", "SSL Certificate Checks"),
   ("license_checks", "vSphere License Checks"),
   ("ntp_checks", "NTP Configuration"),
   ("vm_config_checks", "VM Configuration"),
   ("vm_resource_checks", "VM Resources"),
   ("password_expiration_checks", "Password Expiration"),
   ("linux_checks", "Linux Machine Checks"),
   ("windows_checks", "Windows Machine Checks"),
   ("url_checks", "URL Accessibility"),
   ("vsphere_checks", "vSphere Configuration"),
   ("inventory_checks", "Inventory & Utilization")]

/-- `getattr(report, category_id, [])` for the category fields. -/
def ValidationReport.getCategory (r : ValidationReport) (category_id : String) : List CheckResult :=
  if category_id == "ssl_checks" then r.ssl_checks
  else if category_id == "license_checks" then r.license_checks
  else if category_id == "ntp_checks" then r.ntp_checks
  else if category_id == "vm_config_checks" then r.vm_config_checks
  else if category_id == "vm_resource_checks" then r.vm_resource_checks
  else if category_id == "password_expiration_checks" then r.password_expiration_checks
  else if category_id == "linux_checks" then r.linux_checks
  else if category_id == "windows_checks" then r.windows_checks
  else if category_id == "url_checks" then r.url_checks
  else if category_id == "vsphere_checks" then r.vsphere_checks
  else if category_id == "inventory_checks" then r.inventory_checks
  else []

/-- The orchestrator's `self.report.<category>.extend(results)` sites
(`src/autocheck.py`), keyed by the category field name; an unknown category
name leaves the report unchanged. -/
def ValidationReport.extendCategory (r : ValidationReport) (category_id : String)
    (results : List CheckResult) : ValidationReport :=
  if category_id == "ssl_checks" then { r with ssl_checks := r.ssl_checks ++ results }
  else if category_id == "license_checks" then { r with license_checks := r.license_checks ++ results }
  else if category_id == "ntp_checks" then { r with ntp_checks := r.ntp_checks ++ results }
  else if category_id == "vm_config_checks" then { r with vm_config_checks := r.vm_config_checks ++ results }
  else if category_id == "vm_resource_checks" then { r with vm_resource_checks := r.vm_resource_checks ++ results }
  else if category_id == "password_expiration_checks" then { r with password_expiration_checks := r.password_expiration_checks ++ results }
  else if category_id == "linux_checks" then { r with linux_checks := r.linux_checks ++ results }
  else if category_id == "windows_checks" then { r with windows_checks := r.windows_checks ++ results }
  else if category_id == "url_checks" then { r with url_checks := r.url_checks ++ results }
  else if category_id == "vsphere_checks" then { r with vsphere_checks := r.vsphere_checks ++ results }
  else if category_id == "inventory_checks" then { r with inventory_checks := r.inventory_checks ++ results }
  else r

/-- A run's successive category extensions, folded over the report. -/
def ValidationReport.extendAll (r : ValidationReport)
    (exts : List (String × List CheckResult)) : ValidationReport :=
  exts.foldl (fun r e => r.extendCategory e.1 e.2) r
/-- The fixed HTML prologue of `generate_html_content` (`src/autocheck_report.py`
lines 69-313): document head, CSS, report header, status banner and summary
cards, with the f-string interpolations as parameters.  Literal braces are
written `\\x7b`/`\\x7d` and apostrophes `\\x27`. -/
def htmlHead (report : ValidationReport) (summary : List (String × Nat)) (banner_class banner_icon : String) : String :=
  "<!DOCTYPE html>\n<html lang=\"en\">\n<head>\n    <meta charset=\"UTF-8\">\n    <meta name=\"viewport\" content=\"width=device-width, initial-scale=1.0\">\n    <title>AutoCheck Report - "
  ++ report.lab_sku
  ++ "</title>\n    <style>\n        :root \x7b\n            --pass-color: #16a34a;\n            --fail-color: #dc2626;\n            --warn-color: #ca8a04;\n            --info-color: #2563eb;\n            --skip-color: #6b7280;\n            --fixed-color: #7c3aed;\n        \x7d\n        \n        * \x7b\n            box-sizing: border-box;\n        \x7d\n        \n        body \x7b\n            font-family: \x27Segoe UI\x27, -apple-system, BlinkMacSystemFont, sans-serif;\n            margin: 0;\n            padding: 20px;\n            background: #f1f5f9;\n            color: #1e293b;\n            line-height: 1.5;\n        \x7d\n        \n        .container \x7b\n            max-width: 1200px;\n            margin: 0 auto;\n        \x7d\n        \n        header \x7b\n            background: white;\n            border-radius: 8px;\n            padding: 24px;\n            margin-bottom: 24px;\n            box-shadow: 0 1px 3px rgba(0,0,0,0.1);\n        \x7d\n        \n        h1 \x7b\n            margin: 0 0 16px 0;\n            color: #0f172a;\n            font-size: 24px;\n        \x7d\n        \n        .meta \x7b\n            color: #64748b;\n            font-size: 14px;\n        \x7d\n        \n        .meta span \x7b\n            margin-right: 24px;\n        \x7d\n        \n        .banner \x7b\n            padding: 16px 24px;\n            border-radius: 8px;\n            margin-bottom: 24px;\n            font-weight: 600;\n            font-size: 18px;\n            display: flex;\n            align-items: center;\n            gap: 12px;\n        \x7d\n        \n        .banner-pass \x7b\n            background: #dcfce7;\n            color: #166534;\n            border: 1px solid #86efac;\n        \x7d\n        \n        .banner-fail \x7b\n            background: #fee2e2;\n            color: #991b1b;\n            border: 1px solid #fca5a5;\n        \x7d\n        \n        .banner-warn \x7b\n            background: #fef3c7;\n            color: #92400e;\n            border: 1px solid #fcd34d;\n        \x7d\n        \n        .summary \x7b\n            display: grid;\n            grid-template-columns: repeat(auto-fit, minmax(120px, 1fr));\n            gap: 16px;\n            margin-bottom: 24px;\n        \x7d\n        \n        .summary-card \x7b\n            background: white;\n            border-radius: 8px;\n            padding: 16px;\n            text-align: center;\n            box-shadow: 0 1px 3px rgba(0,0,0,0.1);\n        \x7d\n        \n        .summary-card .count \x7b\n            font-size: 32px;\n            font-weight: 700;\n        \x7d\n        \n        .summary-card .label \x7b\n            font-size: 12px;\n            text-transform: uppercase;\n            color: #64748b;\n            margin-top: 4px;\n        \x7d\n        \n        .summary-card.pass .count \x7b color: var(--pass-color); \x7d\n        .summary-card.fail .count \x7b color: var(--fail-color); \x7d\n        .summary-card.warn .count \x7b color: var(--warn-color); \x7d\n        .summary-card.info .count \x7b color: var(--info-color); \x7d\n        .summary-card.skip .count \x7b color: var(--skip-color); \x7d\n        \n        section \x7b\n            background: white;\n            border-radius: 8px;\n            margin-bottom: 16px;\n            box-shadow: 0 1px 3px rgba(0,0,0,0.1);\n            overflow: hidden;\n        \x7d\n        \n        section h2 \x7b\n            margin: 0;\n            padding: 16px 24px;\n            background: #f8fafc;\n            border-bottom: 1px solid #e2e8f0;\n            font-size: 16px;\n            font-weight: 600;\n            color: #334155;\n        \x7d\n        \n        .check-list \x7b\n            padding: 0;\n            margin: 0;\n            list-style: none;\n        \x7d\n        \n        .check-item \x7b\n            padding: 12px 24px;\n            border-bottom: 1px solid #f1f5f9;\n            display: flex;\n            align-items: flex-start;\n            gap: 12px;\n        \x7d\n        \n        .check-item:last-child \x7b\n            border-bottom: none;\n        \x7d\n        \n        .check-icon \x7b\n            flex-shrink: 0;\n            width: 24px;\n            text-align: center;\n        \x7d\n        \n        .check-content \x7b\n            flex-grow: 1;\n            min-width: 0;\n        \x7d\n        \n        .check-name \x7b\n            font-weight: 500;\n            color: #1e293b;\n        \x7d\n        \n        .check-message \x7b\n            font-size: 14px;\n            color: #64748b;\n            margin-top: 2px;\n        \x7d\n        \n        .check-status \x7b\n            flex-shrink: 0;\n            padding: 2px 8px;\n            border-radius: 4px;\n            font-size: 12px;\n            font-weight: 600;\n            text-transform: uppercase;\n        \x7d\n        \n        .status-pass \x7b background: #dcfce7; color: #166534; \x7d\n        .status-fail \x7b background: #fee2e2; color: #991b1b; \x7d\n        .status-warn \x7b background: #fef3c7; color: #92400e; \x7d\n        .status-info \x7b background: #dbeafe; color: #1e40af; \x7d\n        .status-skipped \x7b background: #f1f5f9; color: #475569; \x7d\n        .status-fixed \x7b background: #ede9fe; color: #5b21b6; \x7d\n        \n        .empty-section \x7b\n            padding: 24px;\n            text-align: center;\n            color: #94a3b8;\n        \x7d\n        \n        footer \x7b\n            text-align: center;\n            padding: 24px;\n            color: #94a3b8;\n            font-size: 12px;\n        \x7d\n    </style>\n</head>\n<body>\n    <div class=\"container\">\n        <header>\n            <h1>AutoCheck Report: "
  ++ report.lab_sku
  ++ "</h1>\n            <div class=\"meta\">\n                <span>Generated: "
  ++ report.timestamp
  ++ "</span>\n                <span>Expiration Window: "
  ++ report.min_exp_date
  ++ " to "
  ++ report.max_exp_date
  ++ "</span>\n            </div>\n        </header>\n        \n        <div class=\"banner "
  ++ banner_class
  ++ "\">\n            <span>"
  ++ banner_icon
  ++ "</span>\n            <span>Overall Status: "
  ++ report.overall_status
  ++ "</span>\n        </div>\n        \n        <div class=\"summary\">\n            <div class=\"summary-card pass\">\n                <div class=\"count\">"
  ++ toString (summaryGet summary "pass")
  ++ "</div>\n                <div class=\"label\">Passed</div>\n            </div>\n            <div class=\"summary-card fail\">\n                <div class=\"count\">"
  ++ toString (summaryGet summary "fail")
  ++ "</div>\n                <div class=\"label\">Failed</div>\n            </div>\n            <div class=\"summary-card warn\">\n                <div class=\"count\">"
  ++ toString (summaryGet summary "warn")
  ++ "</div>\n                <div class=\"label\">Warnings</div>\n            </div>\n            <div class=\"summary-card info\">\n                <div class=\"count\">"
  ++ toString (summaryGet summary "info")
  ++ "</div>\n                <div class=\"label\">Info</div>\n            </div>\n            <div class=\"summary-card skip\">\n                <div class=\"count\">"
  ++ toString (summaryGet summary "skipped")
  ++ "</div>\n                <div class=\"label\">Skipped</div>\n            </div>\n        </div>\n"

/-- The per-category section opener of `generate_html_content`
(`src/autocheck_report.py` lines 322-325). -/
def sectionOpen (category_name : String) : String :=
  "\n        <section>\n            <h2>" ++ category_name ++ "</h2>\n"

/-- One rendered check item (`src/autocheck_report.py` lines 329-341). -/
def checkItemHtml (check : CheckResult) : String :=
  let icon := get_status_icon check.status
  let status_class := get_status_class check.status
  "                <li class=\"check-item\">\n                    <span class=\"check-icon\">"
  ++ icon
  ++ "</span>\n                    <div class=\"check-content\">\n                        <div class=\"check-name\">"
  ++ check.name
  ++ "</div>\n                        <div class=\"check-message\">"
  ++ check.message
  ++ "</div>\n                    </div>\n                    <span class=\"check-status "
  ++ status_class
  ++ "\">"
  ++ check.status
  ++ "</span>\n                </li>\n"

/-- The fixed HTML epilogue (`src/autocheck_report.py` lines 347-354). -/
def htmlFooter : String :=
  "\n        <footer>\n            AutoCheck - HOLFY27 Lab Validation Tool | HOL Core Team\n        </footer>\n    </div>\n</body>\n</html>\n"

/-- `generate_html_content` (`src/autocheck_report.py` lines 46-356): prologue
with banner and summary, then one section per non-empty category in
`CHECK_CATEGORIES` order, then the footer. -/
def generate_html_content (report : ValidationReport) : String :=
  let summary := report.get_summary
  let banner : String × String :=
    if report.overall_status == "FAIL" then ("banner-fail", "❌")
    else if report.overall_status == "WARN" then ("banner-warn", "⚠️")
    else ("banner-pass", "✅")
  let html := htmlHead report summary banner.1 banner.2
  let html := CHECK_CATEGORIES.foldl (fun html cat =>
    let checks := report.getCategory cat.1
    if checks.isEmpty then html
    else
      let html := html ++ sectionOpen cat.2
      let html := html ++ "            <ul class=\"check-list\">\n"
      let html := checks.foldl (fun html check => html ++ checkItemHtml check) html
      let html := html ++ "            </ul>\n"
      html ++ "        </section>\n") html
  html ++ htmlFooter

/-- A complete rendered category section, used to state which sections the
rendered document consists of. -/
def sectionHtml (category_name : String) (checks : List CheckResult) : String :=
  sectionOpen category_name
  ++ "            <ul class=\"check-list\">\n"
  ++ checks.foldl (fun html check => html ++ checkItemHtml check) ""
  ++ "            </ul>\n"
  ++ "        </section>\n"

/-- `AutoCheck.run` (`src/autocheck.py` lines 683-729), reduced to its exit
decision.  When `initialize` fails the method returns 1 at once and
`self.report` is still `None`; otherwise the checks run (the report they
produce is the parameter `report_after_checks`), `generate_reports` invokes
`calculate_overall_status`, and the exit code is
`0 if self.report.overall_status != 'FAIL' else 1`. -/
def AutoCheck.run (init_ok : Bool) (report_after_checks : ValidationReport) :
    Int × Option ValidationReport :=
  if !init_ok then (1, none)
  else
    let r := report_after_checks.calculate_overall_status
    ((if r.overall_status != "FAIL" then 0 else 1), some r)

/-- The key list of a serialized Python dict (empty for non-dicts). -/
def PyVal.keys : PyVal → List String
  | .dict l => l.map Prod.fst
  | _ => []

/-- Key lookup in a serialized Python dict. -/
def PyVal.lookupKey (v : PyVal) (key : String) : Option PyVal :=
  match v with
  | .dict l => l.lookup key
  | _ => none

/-- A sample check result used to instantiate universally quantified theorems. -/
def sampleCheck (s : String) : CheckResult :=
  { name := "check", status := s, message := "msg" }

/-- A sample report (the spec's worked scenario: one FAIL ssl check, one WARN
and one PASS license check). -/
def sampleReport : ValidationReport :=
  { lab_sku := "HOL-2701",
    ssl_checks := [sampleCheck "FAIL"],
    license_checks := [sampleCheck "WARN", sampleCheck "PASS"] }

/-- A freshly constructed report with every category list empty. -/
def emptyReport : ValidationReport :=
  { lab_sku := "HOL-2701" }

/-- A report whose only result has status FIXED. -/
def fixedOnlyReport : ValidationReport :=
  { lab_sku := "HOL-2701", ntp_checks := [sampleCheck "FIXED"] }

/-- C9: for every `CheckResult`, `is_pass()` holds iff the status is `PASS` or
`FIXED`, and `is_fail()` holds iff the status is `FAIL`. -/
theorem is_pass_is_fail_spec :
    ∀ c : CheckResult,
      (c.is_pass = true ↔ (c.status = "PASS" ∨ c.status = "FIXED"))
      ∧ (c.is_fail = true ↔ c.status = "FAIL") := by
  intro c
  constructor
  · simp [CheckResult.is_pass]
  · simp [CheckResult.is_fail]

/-- C10: `get_all_checks` is exactly the concatenation of the eleven category
lists in the fixed order ssl, license, ntp, vm_config, vm_resource,
password_expiration, linux, windows, url, vsphere, inventory (hence preserves
each list's internal order), and its length is the sum of the eleven
lengths. -/
theorem get_all_checks_spec :
    ∀ r : ValidationReport,
      r.get_all_checks =
        r.ssl_checks ++ r.license_checks ++ r.ntp_checks ++ r.vm_config_checks ++
        r.vm_resource_checks ++ r.password_expiration_checks ++ r.linux_checks ++
        r.windows_checks ++ r.url_checks ++ r.vsphere_checks ++ r.inventory_checks
      ∧ r.get_all_checks.length =
        r.ssl_checks.length + r.license_checks.length + r.ntp_checks.length +
        r.vm_config_checks.length + r.vm_resource_checks.length +
        r.password_expiration_checks.length + r.linux_checks.length +
        r.windows_checks.length + r.url_checks.length + r.vsphere_checks.length +
        r.inventory_checks.length := by
  intro r
  constructor
  · simp [ValidationReport.get_all_checks]
  · simp [ValidationReport.get_all_checks]
    omega

/-- C4: `overall_status` is not kept in sync with the category lists: a newly
constructed report carries the default `PASS`, extending any category list
leaves the field untouched, and therefore a fresh report that has received
any results (even FAIL ones) still reads `PASS` until
`calculate_overall_status` runs. -/
theorem overall_status_stale_spec :
    ∀ (sku now cat : String) (results : List CheckResult) (r : ValidationReport),
      (ValidationReport.post_init { lab_sku := sku } now).overall_status = "PASS"
      ∧ (r.extendCategory cat results).overall_status = r.overall_status
      ∧ ((ValidationReport.post_init { lab_sku := sku } now).extendCategory cat
          results).overall_status = "PASS" := by
  intro sku now cat results r
  have hpost : ∀ (r' : ValidationReport) (t : String),
      (r'.post_init t).overall_status = r'.overall_status := by
    intro r' t
    unfold ValidationReport.post_init
    split <;> rfl
  have hext : ∀ (r' : ValidationReport),
      (r'.extendCategory cat results).overall_status = r'.overall_status := by
    intro r'
    unfold ValidationReport.extendCategory
    simp only [apply_ite ValidationReport.overall_status]
    simp
  refine ⟨?_, hext r, ?_⟩
  · rw [hpost]
  · rw [hext, hpost]

/-- C7: the renderer's status markers never fail: any status string outside
the six-value enum maps to the fallback icon and to the `status-unknown`
CSS class. -/
theorem unknown_status_markers_spec :
    ∀ s : String,
      s ∉ (["PASS", "FAIL", "WARN", "INFO", "SKIPPED", "FIXED"] : List String) →
      get_status_icon s = "â“" ∧ get_status_class s = "status-unknown" := by
  intro s hs
  simp only [List.mem_cons, List.not_mem_nil, or_false, not_or] at hs
  obtain ⟨h1, h2, h3, h4, h5, h6⟩ := hs
  have b1 : (s == "PASS") = false := beq_eq_false_iff_ne.mpr h1
  have b2 : (s == "FAIL") = false := beq_eq_false_iff_ne.mpr h2
  have b3 : (s == "WARN") = false := beq_eq_false_iff_ne.mpr h3
  have b4 : (s == "INFO") = false := beq_eq_false_iff_ne.mpr h4
  have b5 : (s == "SKIPPED") = false := beq_eq_false_iff_ne.mpr h5
  have b6 : (s == "FIXED") = false := beq_eq_false_iff_ne.mpr h6
  constructor
  · simp [get_status_icon, icons, List.lookup, b1, b2, b3, b4, b5, b6]
  · simp [get_status_class, statusClasses, List.lookup, b1, b2, b3, b4, b5, b6]

/-- C7 witness: the unrecognized status `BOGUS` maps to the fallback markers. -/
theorem unknown_status_markers_witness :
    "BOGUS" ∉ (["PASS", "FAIL", "WARN", "INFO", "SKIPPED", "FIXED"] : List String)
    ∧ get_status_icon "BOGUS" = "â“" ∧ get_status_class "BOGUS" = "status-unknown" :=
  ⟨by decide, unknown_status_markers_spec "BOGUS" (by decide)⟩

/-- The value stored and returned by `calculate_overall_status`, written as a
three-way conditional over the aggregated check list. -/
theorem calculate_overall_status_eq (r : ValidationReport) :
    (r.calculate_overall_status).overall_status =
      (if r.get_all_checks.any (fun c => c.status == "FAIL") then "FAIL"
       else if r.get_all_checks.any (fun c => c.status == "WARN") then "WARN"
       else "PASS") := by
  unfold ValidationReport.calculate_overall_status
  simp only [apply_ite ValidationReport.overall_status]

/-- C1: `calculate_overall_status` returns `FAIL` iff some check across the
eleven categories has status `FAIL`; otherwise `WARN` iff some check has
status `WARN`; otherwise `PASS`; and a report with all eleven category lists
empty reduces to `PASS`. -/
theorem overall_status_reduction_spec :
    ∀ r : ValidationReport,
      ((r.calculate_overall_status).overall_status = "FAIL" ↔
        ∃ c ∈ r.get_all_checks, c.status = "FAIL")
      ∧ ((r.calculate_overall_status).overall_status = "WARN" ↔
        ((∀ c ∈ r.get_all_checks, c.status ≠ "FAIL") ∧
         ∃ c ∈ r.get_all_checks, c.status = "WARN"))
      ∧ ((r.calculate_overall_status).overall_status = "PASS" ↔
        ((∀ c ∈ r.get_all_checks, c.status ≠ "FAIL") ∧
         (∀ c ∈ r.get_all_checks, c.status ≠ "WARN")))
      ∧ (r.ssl_checks = [] ∧ r.license_checks = [] ∧ r.ntp_checks = [] ∧
         r.vm_config_checks = [] ∧ r.vm_resource_checks = [] ∧
         r.password_expiration_checks = [] ∧ r.linux_checks = [] ∧
         r.windows_checks = [] ∧ r.url_checks = [] ∧ r.vsphere_checks = [] ∧
         r.inventory_checks = [] →
         (r.calculate_overall_status).overall_status = "PASS") := by
  intro r
  by_cases hF : r.get_all_checks.any (fun c => c.status == "FAIL") = true
  · have hex : ∃ c ∈ r.get_all_checks, c.status = "FAIL" := by simpa using hF
    obtain ⟨c0, hc0, hs0⟩ := hex
    refine ⟨?_, ?_, ?_, ?_⟩
    · simp only [calculate_overall_status_eq, hF, if_true]
      exact ⟨fun _ => ⟨c0, hc0, hs0⟩, fun _ => trivial⟩
    · simp only [calculate_overall_status_eq, hF, if_true]
      constructor
      · intro h; exact absurd h (by decide)
      · rintro ⟨hno, -⟩; exact absurd hs0 (hno c0 hc0)
    · simp only [calculate_overall_status_eq, hF, if_true]
      constructor
      · intro h; exact absurd h (by decide)
      · rintro ⟨hno, -⟩; exact absurd hs0 (hno c0 hc0)
    · rintro ⟨e1, e2, e3, e4, e5, e6, e7, e8, e9, e10, e11⟩
      rw [ValidationReport.get_all_checks, e1, e2, e3, e4, e5, e6, e7, e8, e9,
          e10, e11] at hF
      simp at hF
  · have hnoF : ∀ c ∈ r.get_all_checks, c.status ≠ "FAIL" := by
      intro c hc
      simp only [List.any_eq_true, not_exists] at hF
      intro h
      exact absurd (by simpa [h] using hF c) (by simp [hc])
    by_cases hW : r.get_all_checks.any (fun c => c.status == "WARN") = true
    · have hexW : ∃ c ∈ r.get_all_checks, c.status = "WARN" := by simpa using hW
      refine ⟨?_, ?_, ?_, ?_⟩
      · simp only [calculate_overall_status_eq, hF, hW, if_false, if_true,
          Bool.false_eq_true]
        constructor
        · intro h; exact absurd h (by decide)
        · rintro ⟨c, hc, hs⟩; exact absurd hs (hnoF c hc)
      · simp only [calculate_overall_status_eq, hF, hW, if_false, if_true,
          Bool.false_eq_true]
        exact ⟨fun _ => ⟨hnoF, hexW⟩, fun _ => trivial⟩
      · simp only [calculate_overall_status_eq, hF, hW, if_false, if_true,
          Bool.false_eq_true]
        constructor
        · intro h; exact absurd h (by decide)
        · rintro ⟨-, hno⟩
          obtain ⟨c, hc, hs⟩ := hexW
          exact absurd hs (hno c hc)
      · rintro ⟨e1, e2, e3, e4, e5, e6, e7, e8, e9, e10, e11⟩
        rw [ValidationReport.get_all_checks, e1, e2, e3, e4, e5, e6, e7, e8,
            e9, e10, e11] at hW
        simp at hW
    · have hnoW : ∀ c ∈ r.get_all_checks, c.status ≠ "WARN" := by
        intro c hc
        simp only [List.any_eq_true, not_exists] at hW
        intro h
        exact absurd (by simpa [h] using hW c) (by simp [hc])
      refine ⟨?_, ?_, ?_, ?_⟩
      · simp only [calculate_overall_status_eq, hF, hW, if_false,
          Bool.false_eq_true]
        constructor
        · intro h; exact absurd h (by decide)
        · rintro ⟨c, hc, hs⟩; exact absurd hs (hnoF c hc)
      · simp only [calculate_overall_status_eq, hF, hW, if_false,
          Bool.false_eq_true]
        constructor
        · intro h; exact absurd h (by decide)
        · rintro ⟨-, ⟨c, hc, hs⟩⟩; exact absurd hs (hnoW c hc)
      · simp only [calculate_overall_status_eq, hF, hW, if_false,
          Bool.false_eq_true]
        exact ⟨fun _ => ⟨hnoF, hnoW⟩, fun _ => trivial⟩
      · intro h
        simp only [calculate_overall_status_eq, hF, hW, if_false,
          Bool.false_eq_true]

/-- C1 witness: the all-empty report reduces to `PASS`. -/
theorem overall_status_reduction_witness :
    (emptyReport.calculate_overall_status).overall_status = "PASS" :=
  (overall_status_reduction_spec emptyReport).2.2.2
    ⟨rfl, rfl, rfl, rfl, rfl, rfl, rfl, rfl, rfl, rfl, rfl⟩

/-- The `pass` bucket splits into the `PASS` count plus the `FIXED` count. -/
theorem countP_pass_fixed (l : List CheckResult) :
    l.countP (fun c => c.status == "PASS" || c.status == "FIXED") =
      l.countP (fun c => c.status == "PASS") +
      l.countP (fun c => c.status == "FIXED") := by
  induction l with
  | nil => rfl
  | cons c t ih =>
    simp only [List.countP_cons, ih]
    by_cases h : c.status = "PASS"
    · simp [h]
      omega
    · by_cases h2 : c.status = "FIXED"
      · simp [h, h2]
        omega
      · simp [h, h2]

/-- When every status is one of the six enum values, the five summary buckets
partition the result list. -/
theorem buckets_sum (l : List CheckResult)
    (h : ∀ c ∈ l, c.status ∈
      (["PASS", "FAIL", "WARN", "INFO", "SKIPPED", "FIXED"] : List String)) :
    l.countP (fun c => c.status == "PASS" || c.status == "FIXED") +
    l.countP (fun c => c.status == "FAIL") +
    l.countP (fun c => c.status == "WARN") +
    l.countP (fun c => c.status == "INFO") +
    l.countP (fun c => c.status == "SKIPPED") = l.length := by
  induction l with
  | nil => rfl
  | cons c t ih =>
    have hc := h c (List.mem_cons_self c t)
    have ht : ∀ x ∈ t, x.status ∈
        (["PASS", "FAIL", "WARN", "INFO", "SKIPPED", "FIXED"] : List String) :=
      fun x hx => h x (List.mem_cons_of_mem c hx)
    have ihs := ih ht
    simp only [List.countP_cons, List.length_cons]
    have hc' : c.status = "PASS" ∨ c.status = "FAIL" ∨ c.status = "WARN" ∨
        c.status = "INFO" ∨ c.status = "SKIPPED" ∨ c.status = "FIXED" := by
      simpa using hc
    rcases hc' with h1 | h1 | h1 | h1 | h1 | h1 <;> simp [h1] <;> omega

/-- C2: `get_summary` has exactly the keys `pass`, `fail`, `warn`, `info`,
`skipped`, `total` (in source order); `pass` counts `PASS` plus `FIXED`
results, the next four buckets count exactly their status, `total` counts all
results regardless of status; and when every status is one of the six enum
values the five buckets sum to `total`. -/
theorem get_summary_spec :
    ∀ r : ValidationReport,
      r.get_summary.map Prod.fst = ["pass", "fail", "warn", "info", "skipped", "total"]
      ∧ summaryGet r.get_summary "pass" =
          (r.get_all_checks.countP fun c => c.status == "PASS") +
          (r.get_all_checks.countP fun c => c.status == "FIXED")
      ∧ summaryGet r.get_summary "fail" =
          (r.get_all_checks.countP fun c => c.status == "FAIL")
      ∧ summaryGet r.get_summary "warn" =
          (r.get_all_checks.countP fun c => c.status == "WARN")
      ∧ summaryGet r.get_summary "info" =
          (r.get_all_checks.countP fun c => c.status == "INFO")
      ∧ summaryGet r.get_summary "skipped" =
          (r.get_all_checks.countP fun c => c.status == "SKIPPED")
      ∧ summaryGet r.get_summary "total" = r.get_all_checks.length
      ∧ ((∀ c ∈ r.get_all_checks, c.status ∈
            (["PASS", "FAIL", "WARN", "INFO", "SKIPPED", "FIXED"] : List String)) →
          summaryGet r.get_summary "pass" + summaryGet r.get_summary "fail" +
          summaryGet r.get_summary "warn" + summaryGet r.get_summary "info" +
          summaryGet r.get_summary "skipped" = summaryGet r.get_summary "total") := by
  intro r
  have hpass : summaryGet r.get_summary "pass" =
      r.get_all_checks.countP (fun c => c.status == "PASS" || c.status == "FIXED") := rfl
  refine ⟨rfl, ?_, rfl, rfl, rfl, rfl, rfl, ?_⟩
  · rw [hpass, countP_pass_fixed]
  · intro h
    have htot : summaryGet r.get_summary "total" = r.get_all_checks.length := rfl
    rw [hpass, htot]
    have hfail : summaryGet r.get_summary "fail" =
        r.get_all_checks.countP (fun c => c.status == "FAIL") := rfl
    have hwarn : summaryGet r.get_summary "warn" =
        r.get_all_checks.countP (fun c => c.status == "WARN") := rfl
    have hinfo : summaryGet r.get_summary "info" =
        r.get_all_checks.countP (fun c => c.status == "INFO") := rfl
    have hskip : summaryGet r.get_summary "skipped" =
        r.get_all_checks.countP (fun c => c.status == "SKIPPED") := rfl
    rw [hfail, hwarn, hinfo, hskip]
    exact buckets_sum r.get_all_checks h

/-- C2 witness: on the spec's worked scenario the buckets sum to `total`. -/
theorem get_summary_spec_witness :
    (∀ c ∈ sampleReport.get_all_checks, c.status ∈
      (["PASS", "FAIL", "WARN", "INFO", "SKIPPED", "FIXED"] : List String))
    ∧ summaryGet sampleReport.get_summary "pass" +
      summaryGet sampleReport.get_summary "fail" +
      summaryGet sampleReport.get_summary "warn" +
      summaryGet sampleReport.get_summary "info" +
      summaryGet sampleReport.get_summary "skipped" =
      summaryGet sampleReport.get_summary "total" :=
  ⟨by decide, (get_summary_spec sampleReport).2.2.2.2.2.2.2 (by decide)⟩

/-- Extending a category never changes whether some aggregated check satisfies
`p`, as long as none of the appended results does. -/
theorem any_extendCategory (r : ValidationReport) (cat : String)
    (cs : List CheckResult) (p : CheckResult → Bool) (h : cs.any p = false) :
    ((r.extendCategory cat cs).get_all_checks).any p = (r.get_all_checks).any p := by
  unfold ValidationReport.extendCategory
  simp only [apply_ite (fun r' : ValidationReport => r'.get_all_checks.any p)]
  simp [ValidationReport.get_all_checks, List.any_append, h]

/-- Reports whose aggregated lists agree on the FAIL and WARN tests get the
same overall status. -/
theorem calc_eq_of_any_eq (r r' : ValidationReport)
    (hF : r'.get_all_checks.any (fun c => c.status == "FAIL") =
          r.get_all_checks.any (fun c => c.status == "FAIL"))
    (hW : r'.get_all_checks.any (fun c => c.status == "WARN") =
          r.get_all_checks.any (fun c => c.status == "WARN")) :
    (r'.calculate_overall_status).overall_status =
      (r.calculate_overall_status).overall_status := by
  rw [calculate_overall_status_eq, calculate_overall_status_eq, hF, hW]

/-- C3: results with status `INFO`, `SKIPPED` or `FIXED` never influence the
overall status: any sequence of category extensions consisting only of such
results leaves `calculate_overall_status` unchanged; and a report whose only
result is a `FIXED` one has overall status `PASS` and summary `pass` count 1. -/
theorem neutral_statuses_spec :
    (∀ (r : ValidationReport) (exts : List (String × List CheckResult)),
      (∀ e ∈ exts, ∀ c ∈ e.2,
        c.status = "INFO" ∨ c.status = "SKIPPED" ∨ c.status = "FIXED") →
      ((r.extendAll exts).calculate_overall_status).overall_status =
        (r.calculate_overall_status).overall_status)
    ∧ (∀ (r : ValidationReport) (c : CheckResult),
        r.get_all_checks = [c] → c.status = "FIXED" →
        (r.calculate_overall_status).overall_status = "PASS"
        ∧ summaryGet r.get_summary "pass" = 1) := by
  constructor
  · intro r exts
    induction exts generalizing r with
    | nil => intro _; rfl
    | cons e t ih =>
      intro h
      have he := h e (List.mem_cons_self e t)
      have ht : ∀ x ∈ t, ∀ c ∈ x.2,
          c.status = "INFO" ∨ c.status = "SKIPPED" ∨ c.status = "FIXED" :=
        fun x hx => h x (List.mem_cons_of_mem e hx)
      show ((ValidationReport.extendAll (r.extendCategory e.1 e.2) t).calculate_overall_status).overall_status = _
      rw [ih (r.extendCategory e.1 e.2) ht]
      have hnF : e.2.any (fun c => c.status == "FAIL") = false := by
        simp only [List.any_eq_false]
        intro c hc
        rcases he c hc with h1 | h1 | h1 <;> simp [h1]
      have hnW : e.2.any (fun c => c.status == "WARN") = false := by
        simp only [List.any_eq_false]
        intro c hc
        rcases he c hc with h1 | h1 | h1 <;> simp [h1]
      exact calc_eq_of_any_eq r _ (any_extendCategory r e.1 e.2 _ hnF)
        (any_extendCategory r e.1 e.2 _ hnW)
  · intro r c hall hs
    constructor
    · rw [calculate_overall_status_eq, hall]
      simp [hs]
    · have hp : summaryGet r.get_summary "pass" =
          r.get_all_checks.countP (fun c => c.status == "PASS" || c.status == "FIXED") := rfl
      rw [hp, hall]
      simp [List.countP_cons, hs]

/-- C3 witness: appending a single INFO result to the empty report leaves the
overall status unchanged, and the FIXED-only report evaluates to `PASS` with
summary `pass` count 1. -/
theorem neutral_statuses_witness :
    ((emptyReport.extendAll
        [("ssl_checks", [sampleCheck "INFO"])]).calculate_overall_status).overall_status =
      (emptyReport.calculate_overall_status).overall_status
    ∧ (fixedOnlyReport.calculate_overall_status).overall_status = "PASS"
    ∧ summaryGet fixedOnlyReport.get_summary "pass" = 1 :=
  ⟨neutral_statuses_spec.1 emptyReport [("ssl_checks", [sampleCheck "INFO"])]
      (by simp [sampleCheck]),
   (neutral_statuses_spec.2 fixedOnlyReport (sampleCheck "FIXED") rfl rfl).1,
   (neutral_statuses_spec.2 fixedOnlyReport (sampleCheck "FIXED") rfl rfl).2⟩

/-- C6 (amended): when initialization succeeds, the run's exit code is
non-zero iff the finalized report's overall status is `FAIL`; `WARN` or `PASS`
yield exit code 0.  (When initialization fails the run exits 1 with no
report.) -/
theorem run_exit_code_spec :
    ∀ r : ValidationReport,
      ((AutoCheck.run true r).1 ≠ 0 ↔
        (∃ rep, (AutoCheck.run true r).2 = some rep ∧ rep.overall_status = "FAIL"))
      ∧ (∀ rep, (AutoCheck.run true r).2 = some rep →
          rep.overall_status = "WARN" ∨ rep.overall_status = "PASS" →
          (AutoCheck.run true r).1 = 0) := by
  intro r
  by_cases hf : (r.calculate_overall_status).overall_status = "FAIL"
  · constructor
    · simp [AutoCheck.run, hf]
    · intro rep hrep hwp
      have heq : r.calculate_overall_status = rep := by
        simpa [AutoCheck.run] using hrep
      subst heq
      rcases hwp with h | h <;> rw [h] at hf <;> exact absurd hf (by decide)
  · constructor
    · simp [AutoCheck.run, hf]
    · intro rep _ _
      simp [AutoCheck.run, hf]

/-- C6 witness: with successful initialization and the worked FAIL scenario,
the exit code is non-zero. -/
theorem run_exit_code_witness :
    (AutoCheck.run true sampleReport).1 ≠ 0 :=
  (run_exit_code_spec sampleReport).1.mpr
    ⟨sampleReport.calculate_overall_status, rfl, by decide⟩

/-- C6 counterexample: a run whose initialization fails exits with code 1
although no report with overall status `FAIL` exists, so "non-zero exit iff
overall status is FAIL" fails on `AutoCheck.run` as a whole. -/
theorem run_exit_code_counterexample :
    ¬ (((AutoCheck.run false emptyReport).1 ≠ 0) ↔
        (∃ rep, (AutoCheck.run false emptyReport).2 = some rep ∧
          rep.overall_status = "FAIL")) := by
  intro h
  obtain ⟨rep, hrep, -⟩ := h.mp (by decide)
  simp [AutoCheck.run] at hrep

/-- C8: serialization is deterministic — `to_json` (and `to_dict`) is a pure
function of the report state, so two invocations on the same state produce
identical output. -/
theorem serialization_deterministic_spec :
    ∀ r s : ValidationReport, r = s →
      r.to_json = s.to_json ∧ r.to_dict = s.to_dict := by
  intro r s h
  subst h
  exact ⟨rfl, rfl⟩

/-- C8 witness: repeated serialization of the worked scenario agrees. -/
theorem serialization_deterministic_witness :
    sampleReport.to_json = sampleReport.to_json ∧
    sampleReport.to_dict = sampleReport.to_dict :=
  serialization_deterministic_spec sampleReport sampleReport rfl

/-- Accumulating string folds factor through the empty accumulator. -/
theorem foldl_append_shift {α : Type} (f : α → String) (l : List α) (s : String) :
    l.foldl (fun h c => h ++ f c) s = s ++ l.foldl (fun h c => h ++ f c) "" := by
  induction l generalizing s with
  | nil => simp [String.append_empty]
  | cons c t ih =>
    simp only [List.foldl_cons]
    rw [ih (s ++ f c), ih ("" ++ f c), String.empty_append, String.append_assoc]

/-- `String.join` peels off its head element. -/
theorem join_str_cons (s : String) (l : List String) :
    String.join (s :: l) = s ++ String.join l := by
  show (s :: l).foldl (fun a b => a ++ b) "" = s ++ l.foldl (fun a b => a ++ b) ""
  simp only [List.foldl_cons]
  rw [String.empty_append]
  exact foldl_append_shift (fun x => x) l s

/-- The category loop of `generate_html_content` appends exactly one rendered
section per non-empty category, in list order. -/
theorem foldl_sections (report : ValidationReport)
    (cats : List (String × String)) (s : String) :
    cats.foldl (fun html cat =>
      if (report.getCategory cat.1).isEmpty then html
      else
        (report.getCategory cat.1).foldl (fun html check => html ++ checkItemHtml check)
          (html ++ sectionOpen cat.2 ++ "            <ul class=\"check-list\">\n")
        ++ "            </ul>\n"
        ++ "        </section>\n") s
    = s ++ String.join ((cats.filter
          (fun cat => !(report.getCategory cat.1).isEmpty)).map
          (fun cat => sectionHtml cat.2 (report.getCategory cat.1))) := by
  induction cats generalizing s with
  | nil => simp [String.join, String.append_empty]
  | cons cat t ih =>
    simp only [List.foldl_cons, List.filter_cons]
    by_cases hc : (report.getCategory cat.1).isEmpty
    · simp only [hc, if_true, Bool.not_true, Bool.false_eq_true, if_false]
      exact ih s
    · simp only [hc, if_false, Bool.not_false, if_true, List.map_cons,
        Bool.false_eq_true]
      rw [ih, join_str_cons, foldl_append_shift checkItemHtml]
      simp only [sectionHtml, String.append_assoc]

/-- C5: the HTML rendering contains one titled section per category exactly
when that category's list is non-empty, the sections following the fixed
`CHECK_CATEGORIES` display order; while the structured serialization
`to_dict` always carries all eleven category keys, an empty category showing
up as an empty list. -/
theorem report_rendering_spec :
    ∀ r : ValidationReport,
      generate_html_content r =
        htmlHead r r.get_summary
          (if r.overall_status == "FAIL" then "banner-fail"
           else if r.overall_status == "WARN" then "banner-warn" else "banner-pass")
          (if r.overall_status == "FAIL" then "❌"
           else if r.overall_status == "WARN" then "⚠️" else "✅")
        ++ String.join ((CHECK_CATEGORIES.filter
              (fun cat => !(r.getCategory cat.1).isEmpty)).map
              (fun cat => sectionHtml cat.2 (r.getCategory cat.1)))
        ++ htmlFooter
      ∧ (r.to_dict).keys =
          ["lab_sku", "timestamp", "min_exp_date", "max_exp_date",
           "overall_status", "summary", "ssl_checks", "license_checks",
           "ntp_checks", "vm_config_checks", "vm_resource_checks",
           "password_expiration_checks", "linux_checks", "windows_checks",
           "url_checks", "vsphere_checks", "inventory_checks"]
      ∧ (∀ cat ∈ CHECK_CATEGORIES,
          (r.to_dict).lookupKey cat.1 =
            some (.list ((r.getCategory cat.1).map CheckResult.to_dict))) := by
  intro r
  refine ⟨?_, rfl, ?_⟩
  · simp only [generate_html_content]
    rw [foldl_sections]
    by_cases h1 : (r.overall_status == "FAIL") = true
    · simp [h1]
    · by_cases h2 : (r.overall_status == "WARN") = true <;> simp [h1, h2]
  · intro cat hcat
    simp only [CHECK_CATEGORIES, List.mem_cons, List.not_mem_nil, or_false] at hcat
    rcases hcat with h | h | h | h | h | h | h | h | h | h | h <;> subst h <;> rfl

/-- C5 witness: on the worked scenario, the ssl category key of the
serialized report carries the category's results. -/
theorem report_rendering_witness :
    ("ssl_checks", "SSL Certificate Checks") ∈ CHECK_CATEGORIES ∧
    (sampleReport.to_dict).lookupKey "ssl_checks" =
      some (.list ((sampleReport.getCategory "ssl_checks").map CheckResult.to_dict)) :=
  ⟨by decide,
   (report_rendering_spec sampleReport).2.2 ("ssl_checks", "SSL Certificate Checks")
     (by decide)⟩
